import Mathlib

/-!
Shallow embedding of `src/src/basic_memory/mcp/tools/project_management.py`.

The module's five MCP tool handlers are modelled as pure functions.  The
ambient mutable session (the `session` object of `basic_memory.mcp.
project_session`, not under `src/`) is modelled by explicit state passing:
each handler that can read or write the current project takes the
pre-call value of `current_project : String` and returns the post-call
value.  Every external call a handler makes (HTTP requests through
`call_get`/`call_post`/`call_delete`, the `get_project_config` lookup) is
fallible in Python, so each call site's outcome is an input of the model,
an `Except String _` value carried by an environment structure: `.error e`
means the Python call raised an exception rendered as `e`, `.ok v` means
it returned `v`.  Where a function issues HTTP requests, the model also
returns the list of requests actually issued, so "no network call" claims
are statements about that list.

Two local names of the source have no binding at all: `current` at the
`return` of `list_memory_projects` (line 64) and `matching_project` in
`delete_project` (line 302; the resolved record there is bound as
`target_project`).  Evaluating an unbound local name in Python raises
`NameError`, which the model renders as an `.error` carrying the
`NameError` message.
-/

namespace ProjectManagement

/-- A project record as fetched from `GET /projects/projects`
(`ProjectList` entries: name, path, permalink). -/
structure Project where
  name : String
  path : String
  permalink : String
deriving Repr, DecidableEq

/-- The statistics block of `ProjectInfoResponse`
(`total_entities`, `total_observations`, `total_relations`). -/
structure ProjectStatistics where
  total_entities : Nat
  total_observations : Nat
  total_relations : Nat
deriving Repr, DecidableEq

/-- Modelled from the spec: the project configuration returned by
`get_project_config` (from `basic_memory.config`, not under `src/`); the
handlers use only its `project_url`, the base URL of the
`GET project_url/project/info` statistics request. -/
structure ProjectConfig where
  project_url : String
deriving Repr, DecidableEq

/-- A `new_project`/`old_project` entry of a `ProjectStatusResponse`. -/
structure StatusProjectInfo where
  name : String
  path : String
deriving Repr, DecidableEq

/-- The backend's status response to a create or delete request. -/
structure ProjectStatusResponse where
  message : String
  new_project : Option StatusProjectInfo
  old_project : Option StatusProjectInfo
deriving Repr, DecidableEq

/-- An HTTP request issued by a handler, by method and path. -/
inductive ApiCall where
  | get (path : String)
  | post (path : String)
  | del (path : String)
deriving Repr, DecidableEq

/-- Python's `str.lower()` on a string (the handlers apply it only to
ASCII project names).  Written as a structural map over the character
list: Lean's own `String.toLower` recurses on byte positions by
well-founded recursion, which proofs cannot evaluate. -/
def lower (s : String) : String :=
  ⟨s.data.map Char.toLower⟩

/-- Modelled from the spec: `generate_permalink` (from
`basic_memory.utils`, not under `src/`) derives "a normalized slug" from a
name: lowercase, with spaces replaced by hyphens. -/
def generate_permalink (s : String) : String :=
  ⟨(lower s).data.map (fun c => if c = ' ' then '-' else c)⟩

/-- Modelled from the spec: `add_project_metadata` (from
`basic_memory.mcp.project_session`, not under `src/`) appends session
metadata naming the current project to a result block.  The spec keeps
markdown templates out of scope; the model appends one trailing line. -/
def add_project_metadata (result : String) (name : String) : String :=
  result ++ "\nSession: current project is " ++ name

/-- The `BASIC_MEMORY_MCP_PROJECT` pin as each handler reads it:
`os.environ.get` yields `none` (unset) or a string, and the handlers test
it with Python truthiness, so an empty string counts as unset. -/
def constrainedProject (pin : Option String) : Option String :=
  match pin with
  | none => none
  | some s => if s = "" then none else some s

/-- The comma-separated project-name list interpolated into the not-found
messages of `switch_project` (line 102) and `delete_project` (line 298). -/
def availableNames (ps : List Project) : String :=
  String.intercalate ", " (ps.map Project.name)

/-! Resolution.  `switch_project` (lines 94-98) matches a candidate only
by case-insensitive name; `delete_project` (lines 283-293) first compares
the permalink derived from the candidate against each record's permalink
and then falls back to the case-insensitive name comparison.  In both
loops the first matching record wins, which `List.find?` reproduces. -/

/-- Resolution as `switch_project` performs it (lines 94-98):
case-insensitive name comparison only. -/
def switchResolve (project_name : String) (ps : List Project) : Option Project :=
  ps.find? (fun p => lower p.name == lower project_name)

/-- Resolution as `delete_project` performs it (lines 283-293): permalink
comparison first, then case-insensitive name comparison, per record. -/
def deleteResolve (project_name : String) (ps : List Project) : Option Project :=
  let project_permalink := generate_permalink project_name
  ps.find? (fun p => p.permalink == project_permalink || lower p.name == lower project_name)

/-! list_memory_projects (lines 21-64). -/

/-- The constrained-mode report of `list_memory_projects` (lines 53-56). -/
def listConstrainedMsg (cp : String) : String :=
  "Project: " ++ cp ++ "\n\n" ++
  "Note: This MCP server is constrained to a single project.\n" ++
  "All operations will automatically use this project."

/-- The `result` string `list_memory_projects` builds (lines 53-62):
the constrained-mode note, or one bullet line per fetched project. -/
def listResultText (constrained : Option String) (ps : List Project) : String :=
  match constrained with
  | some cp => listConstrainedMsg cp
  | none => "Available projects:\n" ++ String.join (ps.map (fun p => "• " ++ p.name ++ "\n"))

/-- The `NameError` raised at line 64: `return add_project_metadata(result,
current)` reads `current`, a name bound nowhere in `list_memory_projects`. -/
def currentNameError : String := "NameError: name 'current' is not defined"

/-- `list_memory_projects` (lines 21-64).  It reads the pin, fetches the
project list, builds `result`, and then raises `NameError` at its `return`
statement: line 64 passes `current` to `add_project_metadata`, but no
binding for `current` exists in the function body, so no call ever
returns the built report. -/
def list_memory_projects (pin : Option String) (listProjects : Except String (List Project)) :
    Except String String :=
  let constrained := constrainedProject pin
  match listProjects with
  | .error e => .error e
  | .ok ps =>
    let _result := listResultText constrained ps
    .error currentNameError

/-! switch_project (lines 67-161). -/

/-- The outcome of each external call `switch_project` makes: the
`GET /projects/projects` list fetch, the `get_project_config` lookup
(by project name), and the `GET project_url/project/info` statistics
fetch (by project URL and project name). -/
structure SwitchEnv where
  listProjects : Except String (List Project)
  projectConfig : String → Except String ProjectConfig
  projectInfo : String → String → Except String ProjectStatistics

/-- The not-found return of `switch_project` (line 102). -/
def switchNotFoundMsg (project_name : String) (ps : List Project) : String :=
  "Error: Project '" ++ project_name ++ "' not found. Available projects: " ++ availableNames ps

/-- The success message of `switch_project` with statistics (lines 121-125). -/
def switchSuccessStats (name : String) (info : ProjectStatistics) : String :=
  "✓ Switched to " ++ name ++ " project\n\n" ++
  "Project Summary:\n" ++
  "• " ++ toString info.total_entities ++ " entities\n" ++
  "• " ++ toString info.total_observations ++ " observations\n" ++
  "• " ++ toString info.total_relations ++ " relations\n"

/-- The success message of `switch_project` when the statistics fetch
failed (lines 130-131). -/
def switchSuccessNoStats (name : String) : String :=
  "✓ Switched to " ++ name ++ " project\n\n" ++
  "Project summary unavailable.\n"

/-- The formatted failure block of `switch_project`'s outer exception
handler (lines 141-161), after `dedent` and `strip`; `current` is whatever
the local `current_project` holds when the handler runs. -/
def switchFailedMsg (project_name current err : String) : String :=
  "# Project Switch Failed\n\n" ++
  "Could not switch to project '" ++ project_name ++ "': " ++ err ++ "\n\n" ++
  "## Current project: " ++ current ++ "\n" ++
  "Your session remains on the previous project.\n\n" ++
  "## Troubleshooting:\n" ++
  "1. **Check available projects**: Use `list_projects()` to see valid project names\n" ++
  "2. **Verify spelling**: Ensure the project name is spelled correctly\n" ++
  "3. **Check permissions**: Verify you have access to the requested project\n" ++
  "4. **Try again**: The error might be temporary\n\n" ++
  "## Available options:\n" ++
  "- See all projects: `list_projects()`\n" ++
  "- Stay on current project: `get_current_project()`\n" ++
  "- Try different project: `switch_project(\"correct-project-name\")`\n\n" ++
  "If the project should exist but isn't listed, send a message to support@basicmachines.co."

/-- `switch_project` (lines 67-161) as a state transformer: given the
outcomes of its external calls and the pre-call session value, it returns
the result text and the post-call session value.  The source captures
`current_project = session.get_current_project()` at line 87, commits with
`session.set_current_project(actual_project_name)` at line 108, and then
REBINDS `current_project = session.get_current_project()` at line 109, so
from line 109 on the rollback variable holds the committed new name; the
outer exception handler (lines 135-161) performs
`session.set_current_project(current_project)` with whatever
`current_project` then holds and returns the formatted failure block.
The inner handler (lines 127-131) swallows a statistics-fetch failure
(its `logger.warning` is a no-op here) without touching the session. -/
def switch_project (env : SwitchEnv) (project_name : String) (st : String) :
    String × String :=
  let current_project := st
  match env.listProjects with
  | .error e =>
    (switchFailedMsg project_name current_project e, current_project)
  | .ok ps =>
    match switchResolve project_name ps with
    | none => (switchNotFoundMsg project_name ps, st)
    | some matching =>
      let actual_project_name := matching.name
      let current_project := actual_project_name
      match env.projectConfig current_project with
      | .error e =>
        (switchFailedMsg project_name current_project e, current_project)
      | .ok cfg =>
        let result :=
          match env.projectInfo cfg.project_url actual_project_name with
          | .ok info => switchSuccessStats actual_project_name info
          | .error _ => switchSuccessNoStats actual_project_name
        (add_project_metadata result actual_project_name, actual_project_name)

/-! get_current_project (lines 164-192). -/

/-- The outcome of each external call `get_current_project` makes:
`get_project_config` and the statistics fetch. -/
structure CurrentEnv where
  projectConfig : String → Except String ProjectConfig
  projectInfo : String → String → Except String ProjectStatistics

/-- `get_current_project` (lines 164-192): reads the session, looks up the
configuration, fetches and validates the statistics, and returns `result`.
`result` is only ever assigned at line 182 — the validated statistics
(line 190) are never appended to it — and both external calls propagate
their failures (no handler).  The session value is returned unchanged as
the second component. -/
def get_current_project (env : CurrentEnv) (st : String) :
    Except String String × String :=
  let current_project := st
  match env.projectConfig current_project with
  | .error e => (.error e, st)
  | .ok cfg =>
    let result := "Current project: " ++ current_project ++ "\n\n"
    match env.projectInfo cfg.project_url current_project with
    | .error e => (.error e, st)
    | .ok _info => (.ok result, st)

/-! create_memory_project (lines 195-246). -/

/-- The outcome of the `POST /projects/projects` creation request, by
name, path and set-default flag. -/
structure CreateEnv where
  postProject : String → String → Bool → Except String ProjectStatusResponse

/-- The disabled-operation return of `create_memory_project` (line 219). -/
def createDisabledMsg (cp project_name project_path : String) : String :=
  "# Error\n\n" ++
  "Project creation disabled - MCP server is constrained to project '" ++ cp ++ "'.\n" ++
  "Use the CLI to create projects: `basic-memory project add \"" ++ project_name ++
  "\" \"" ++ project_path ++ "\"`"

/-- The success rendering of `create_memory_project` (lines 233-244). -/
def createResultText (project_name : String) (set_default : Bool)
    (resp : ProjectStatusResponse) : String :=
  let result := "✓ " ++ resp.message ++ "\n\n"
  let result :=
    match resp.new_project with
    | some np =>
      result ++ "Project Details:\n" ++
      "• Name: " ++ np.name ++ "\n" ++
      "• Path: " ++ np.path ++ "\n" ++
      (if set_default then "• Set as default project\n" else "")
    | none => result
  result ++ "\nProject is now available for use in tool calls.\n" ++
  "Use '" ++ project_name ++ "' as the project parameter in MCP tool calls.\n"

/-- `create_memory_project` (lines 195-246): under a truthy pin it returns
the disabled message before any network call; otherwise it posts the
creation request and renders the status response.  It never references the
session, so the session value is returned unchanged; the issued HTTP
requests are returned alongside the result. -/
def create_memory_project (pin : Option String) (env : CreateEnv)
    (project_name project_path : String) (set_default : Bool) (st : String) :
    (Except String String × List ApiCall) × String :=
  match constrainedProject pin with
  | some cp => ((.ok (createDisabledMsg cp project_name project_path), []), st)
  | none =>
    match env.postProject project_name project_path set_default with
    | .error e => ((.error e, [ApiCall.post "/projects/projects"]), st)
    | .ok resp =>
      ((.ok (createResultText project_name set_default resp),
        [ApiCall.post "/projects/projects"]), st)

/-! delete_project (lines 249-322). -/

/-- The outcome of each external call `delete_project` can make: the list
fetch and the `DELETE /projects/name` request (by encoded name). -/
structure DeleteEnv where
  listProjects : Except String (List Project)
  deleteProject : String → Except String ProjectStatusResponse

/-- The disabled-operation return of `delete_project` (line 273). -/
def deleteDisabledMsg (cp project_name : String) : String :=
  "# Error\n\n" ++
  "Project deletion disabled - MCP server is constrained to project '" ++ cp ++ "'.\n" ++
  "Use the CLI to delete projects: `basic-memory project remove \"" ++ project_name ++ "\"`"

/-- The `ValueError` message `delete_project` raises when resolution fails
(lines 295-299). -/
def deleteNotFoundMsg (project_name : String) (ps : List Project) : String :=
  "Project '" ++ project_name ++ "' not found. Available projects: " ++ availableNames ps

/-- The `NameError` raised at line 302: `actual_project_name =
matching_project.name` reads `matching_project`, a name bound nowhere in
`delete_project` (its resolved record is bound as `target_project`). -/
def matchingProjectNameError : String := "NameError: name 'matching_project' is not defined"

/-- `delete_project` (lines 249-322): under a truthy pin it returns the
disabled message with no network call; otherwise it fetches the list
(one GET), raises `ValueError` when resolution fails, and when resolution
succeeds raises `NameError` at line 302 — so the URL-encoding and the
DELETE request of lines 304-308 and the rendering of lines 311-322 are
unreachable and no DELETE request is ever issued.  The function never
references the session, so the session value is returned unchanged. -/
def delete_project (pin : Option String) (env : DeleteEnv) (project_name : String)
    (st : String) : (Except String String × List ApiCall) × String :=
  match constrainedProject pin with
  | some cp => ((.ok (deleteDisabledMsg cp project_name), []), st)
  | none =>
    match env.listProjects with
    | .error e => ((.error e, [ApiCall.get "/projects/projects"]), st)
    | .ok ps =>
      match deleteResolve project_name ps with
      | none =>
        ((.error (deleteNotFoundMsg project_name ps), [ApiCall.get "/projects/projects"]), st)
      | some _target =>
        ((.error matchingProjectNameError, [ApiCall.get "/projects/projects"]), st)

/-! Concrete fixtures used by the theorems below. -/

/-- A project named `alpha`. -/
def alphaP : Project := ⟨"alpha", "/projects/alpha", "alpha"⟩

/-- A project named `beta`. -/
def betaP : Project := ⟨"beta", "/projects/beta", "beta"⟩

/-- A project whose name carries a space and an uppercase letter, with the
derived permalink `my-project`. -/
def myProjectP : Project := ⟨"My Project", "/projects/my-project", "my-project"⟩

/-- A `switch_project` environment whose list fetch succeeds and whose
`get_project_config` lookup raises. -/
def configFailEnv : SwitchEnv :=
  { listProjects := .ok [alphaP, betaP]
  , projectConfig := fun _ => .error "config lookup failed"
  , projectInfo := fun _ _ => .error "not reached" }

set_option maxRecDepth 100000 in
/-- C1: refuted on the code.  With the pre-call session on `alpha`, a
switch to `beta` whose `get_project_config` lookup raises after the
session was already set to `beta` takes the outer exception path — yet it
leaves the session on `beta`, not on the pre-call value `alpha`: line 109
rebinds `current_project` to the just-committed name, so the handler's
"rollback" at line 138 restores the NEW name, and the returned failure
block even names `beta` as the current project while asserting the session
remains on the previous one. -/
theorem C1_failed_switch_keeps_new_project :
    (switch_project configFailEnv "beta" "alpha").1 =
      switchFailedMsg "beta" "beta" "config lookup failed" ∧
    (switch_project configFailEnv "beta" "alpha").2 = "beta" ∧
    "beta" ≠ "alpha" := by
  refine ⟨by decide, by decide, by decide⟩

set_option maxRecDepth 100000 in
/-- C2 counterexample: the claim fails for `switch_project`.  For the
project named `My Project` with permalink `my-project`, the permalink
derived from the candidate `my-project` equals the record's permalink, so
the claim says resolution matches in both handlers — but
`switch_project`'s resolution (case-insensitive name comparison only,
lines 94-98) does not match it, while `delete_project`'s (lines 283-293)
does. -/
theorem C2_switch_permalink_counterexample :
    generate_permalink "my-project" = myProjectP.permalink ∧
    deleteResolve "my-project" [myProjectP] = some myProjectP ∧
    switchResolve "my-project" [myProjectP] = none := by
  refine ⟨by decide, by decide, by decide⟩

/-- C2 amended: resolution in `delete_project` succeeds exactly when some
record's permalink equals the permalink derived from the candidate or
some record's name equals the candidate case-insensitively; resolution in
`switch_project` succeeds exactly when some record's name equals the
candidate case-insensitively — `switch_project` accepts no
permalink-equivalent input. -/
theorem C2_resolution_characterization (project_name : String) (ps : List Project) :
    ((deleteResolve project_name ps).isSome ↔
      ∃ p ∈ ps, p.permalink = generate_permalink project_name ∨
        lower p.name = lower project_name) ∧
    ((switchResolve project_name ps).isSome ↔
      ∃ p ∈ ps, lower p.name = lower project_name) := by
  constructor
  · simp [deleteResolve, List.find?_isSome]
  · simp [switchResolve, List.find?_isSome]

/-- A `delete_project` environment whose list fetch returns the
`My Project` record and whose DELETE request would succeed. -/
def deleteEnvOk : DeleteEnv :=
  { listProjects := .ok [myProjectP]
  , deleteProject := fun _ =>
      .ok ⟨"Project deleted", none, some ⟨"My Project", "/projects/my-project"⟩⟩ }

set_option maxRecDepth 100000 in
/-- C3: refuted on the code.  `My Project` resolves against the fetched
list, yet `delete_project` raises `NameError` at line 302 (`actual_project_name
= matching_project.name` reads the unbound name `matching_project`) before
the DELETE request of lines 304-308 is issued: the only HTTP request in
the trace is the initial list GET, and the call fails rather than
returning the rendered status message. -/
theorem C3_delete_crashes_before_request :
    delete_project none deleteEnvOk "My Project" "alpha" =
      ((.error matchingProjectNameError, [ApiCall.get "/projects/projects"]), "alpha") := rfl

/-- A `get_current_project` environment whose configuration lookup and
statistics fetch both succeed, with nonzero statistics. -/
def currentEnvOk : CurrentEnv :=
  { projectConfig := fun _ => .ok ⟨"http://localhost:8000/alpha"⟩
  , projectInfo := fun _ _ => .ok ⟨5, 10, 15⟩ }

set_option maxRecDepth 100000 in
/-- C4: refuted on the code.  With the session on `alpha` and the
statistics fetch succeeding with 5 entities, 10 observations and 15
relations, `get_current_project` returns exactly the header line
`Current project: alpha` — the validated statistics of line 190 are never
appended to `result` (assigned only at line 182), so no summary is
rendered alongside the project name.  The session is unchanged (the
no-mutation half of the claim holds). -/
theorem C4_stats_fetched_but_not_rendered :
    get_current_project currentEnvOk "alpha" =
      (.ok "Current project: alpha\n\n", "alpha") := rfl

/-- A project named `gamma`. -/
def gammaP : Project := ⟨"gamma", "/projects/gamma", "gamma"⟩

set_option maxRecDepth 100000 in
/-- C5: refuted on the code.  `list_memory_projects` builds exactly the
report the claim describes (`listResultText`: the pinned-project note in
constrained mode regardless of the fetched list, one bullet line per
project otherwise), but every call that gets past the list fetch raises
`NameError` at line 64 — `return add_project_metadata(result, current)`
reads the unbound name `current` — so the report is never returned, in
either mode. -/
theorem C5_list_raises_name_error :
    list_memory_projects (some "alpha") (.ok [betaP, gammaP]) = .error currentNameError ∧
    list_memory_projects none (.ok [alphaP, betaP]) = .error currentNameError ∧
    listResultText (some "alpha") [betaP, gammaP] = listConstrainedMsg "alpha" ∧
    listResultText none [alphaP, betaP] = "Available projects:\n• alpha\n• beta\n" := by
  refine ⟨rfl, rfl, by decide, by decide⟩

/-- C6: confirmed.  When the list fetch succeeds and the requested name
does not resolve, `switch_project` returns the line-102 error string
(which interpolates `availableNames ps`, the comma-separated list of every
fetched project name) and leaves the session exactly as it was; a
subsequent `get_current_project` whose own external calls succeed still
reports the pre-call project. -/
theorem C6_switch_not_found_leaves_session (env : SwitchEnv) (cenv : CurrentEnv)
    (project_name st : String) (ps : List Project) (cfg : ProjectConfig)
    (info : ProjectStatistics)
    (hfetch : env.listProjects = .ok ps)
    (hres : switchResolve project_name ps = none)
    (hcfg : cenv.projectConfig st = .ok cfg)
    (hinfo : cenv.projectInfo cfg.project_url st = .ok info) :
    switch_project env project_name st = (switchNotFoundMsg project_name ps, st) ∧
    get_current_project cenv (switch_project env project_name st).2 =
      (.ok ("Current project: " ++ st ++ "\n\n"), st) := by
  have h1 : switch_project env project_name st = (switchNotFoundMsg project_name ps, st) := by
    simp only [switch_project, hfetch, hres]
  refine ⟨h1, ?_⟩
  rw [h1]
  show get_current_project cenv st = (.ok ("Current project: " ++ st ++ "\n\n"), st)
  simp only [get_current_project, hcfg, hinfo]

/-- A `switch_project` environment for an unknown project name: the list
fetch succeeds with `alpha` and `beta`. -/
def notFoundEnv : SwitchEnv :=
  { listProjects := .ok [alphaP, betaP]
  , projectConfig := fun _ => .ok ⟨"http://localhost:8000/alpha"⟩
  , projectInfo := fun _ _ => .ok ⟨1, 2, 3⟩ }

/-- A `get_current_project` environment whose calls succeed. -/
def currentEnvUp : CurrentEnv :=
  ⟨fun _ => .ok ⟨"http://localhost:8000/alpha"⟩, fun _ _ => .ok ⟨1, 2, 3⟩⟩

set_option maxRecDepth 100000 in
/-- C6 witness: the spec's own example — current project `alpha`, backend
list `alpha, beta`, switching to `missing-project`. -/
theorem C6_witness :
    switch_project notFoundEnv "missing-project" "alpha" =
      (switchNotFoundMsg "missing-project" [alphaP, betaP], "alpha") ∧
    get_current_project currentEnvUp (switch_project notFoundEnv "missing-project" "alpha").2 =
      (.ok ("Current project: " ++ "alpha" ++ "\n\n"), "alpha") :=
  C6_switch_not_found_leaves_session notFoundEnv currentEnvUp "missing-project" "alpha"
    [alphaP, betaP] ⟨"http://localhost:8000/alpha"⟩ ⟨1, 2, 3⟩ rfl (by decide) rfl rfl

/-- C7: confirmed.  When the list fetch succeeds and the requested name
does not resolve, `delete_project` raises (its result is the `.error`
carrying the line-297 `ValueError` message, which enumerates the available
names through `availableNames ps`) — a hard failure propagated to the
caller, not an `.ok` formatted result string as `switch_project` returns
for the same situation. -/
theorem C7_delete_not_found_raises (env : DeleteEnv) (project_name st : String)
    (ps : List Project)
    (hfetch : env.listProjects = .ok ps)
    (hres : deleteResolve project_name ps = none) :
    delete_project none env project_name st =
      ((.error (deleteNotFoundMsg project_name ps), [ApiCall.get "/projects/projects"]), st) := by
  simp only [delete_project, constrainedProject, hfetch, hres]

/-- A `delete_project` environment for an unknown project name. -/
def deleteEnvNF : DeleteEnv :=
  ⟨.ok [alphaP, betaP], fun _ => .ok ⟨"Project deleted", none, none⟩⟩

set_option maxRecDepth 100000 in
/-- C7 witness: deleting `missing-project` when the backend list holds
`alpha` and `beta` raises the enumerating `ValueError`. -/
theorem C7_witness :
    delete_project none deleteEnvNF "missing-project" "alpha" =
      ((.error (deleteNotFoundMsg "missing-project" [alphaP, betaP]),
        [ApiCall.get "/projects/projects"]), "alpha") :=
  C7_delete_not_found_raises deleteEnvNF "missing-project" "alpha" [alphaP, betaP]
    rfl (by decide)

/-- C8: confirmed.  Under any truthy pin, `create_memory_project` returns
the line-219 disabled-operation message and its HTTP trace is empty — for
every combination of `project_name`, `project_path` and `set_default`,
whatever the POST request would have returned, and the session is
untouched. -/
theorem C8_create_disabled_no_call (env : CreateEnv)
    (cp project_name project_path st : String) (set_default : Bool)
    (h : cp ≠ "") :
    create_memory_project (some cp) env project_name project_path set_default st =
      ((.ok (createDisabledMsg cp project_name project_path), []), st) := by
  simp only [create_memory_project, constrainedProject, if_neg h]

/-- A creation environment whose POST request would succeed. -/
def createEnvUp : CreateEnv :=
  ⟨fun n p _ => .ok ⟨"Project created", some ⟨n, p⟩, none⟩⟩

set_option maxRecDepth 100000 in
/-- C8 witness: the spec's own example — pin `alpha`, creating `beta` at
`/tmp/beta`: disabled message, no network call. -/
theorem C8_witness :
    "alpha" ≠ "" ∧
    create_memory_project (some "alpha") createEnvUp "beta" "/tmp/beta" false "alpha" =
      ((.ok (createDisabledMsg "alpha" "beta" "/tmp/beta"), []), "alpha") :=
  ⟨by decide, C8_create_disabled_no_call createEnvUp "alpha" "beta" "/tmp/beta" "alpha" false
    (by decide)⟩

/-- C9: confirmed.  When the list fetch succeeds, the name resolves to `p`,
the configuration lookup succeeds, and the statistics fetch fails,
`switch_project` still returns the success block (`switchSuccessNoStats`,
the line-130 `Switched to ...` confirmation with `Project summary
unavailable.` in place of statistics, wrapped by `add_project_metadata`),
and the session stays committed to the resolved canonical name `p.name` —
the inner line-127 handler does not undo the switch. -/
theorem C9_switch_commits_despite_stats_failure (env : SwitchEnv)
    (project_name st : String) (ps : List Project) (p : Project)
    (cfg : ProjectConfig) (e : String)
    (hfetch : env.listProjects = .ok ps)
    (hres : switchResolve project_name ps = some p)
    (hcfg : env.projectConfig p.name = .ok cfg)
    (hinfo : env.projectInfo cfg.project_url p.name = .error e) :
    switch_project env project_name st =
      (add_project_metadata (switchSuccessNoStats p.name) p.name, p.name) := by
  simp only [switch_project, hfetch, hres, hcfg, hinfo]

/-- A `switch_project` environment whose statistics fetch fails after a
successful resolution and configuration lookup. -/
def statsFailEnv : SwitchEnv :=
  { listProjects := .ok [alphaP, betaP]
  , projectConfig := fun _ => .ok ⟨"http://localhost:8000/beta"⟩
  , projectInfo := fun _ _ => .error "info fetch failed" }

set_option maxRecDepth 100000 in
/-- C9 witness: switching from `alpha` to `BETA` (resolving to the
canonical `beta`) with the statistics fetch failing: the success block is
returned without statistics and the session stays on `beta`. -/
theorem C9_witness :
    switch_project statsFailEnv "BETA" "alpha" =
      (add_project_metadata (switchSuccessNoStats betaP.name) betaP.name, betaP.name) :=
  C9_switch_commits_despite_stats_failure statsFailEnv "BETA" "alpha" [alphaP, betaP]
    betaP ⟨"http://localhost:8000/beta"⟩ "info fetch failed" rfl (by decide) rfl rfl

/-- C10: confirmed.  For every pin, environment, argument list and
pre-call session value, the session value returned by
`create_memory_project` and by `delete_project` is the pre-call value:
neither handler references the session, so creation never auto-switches
and deletion leaves the pointer unchanged even when the deleted project is
the current one (the universal quantification over `st` includes
`st = dname`). -/
theorem C10_create_delete_preserve_session (pin : Option String)
    (cenv : CreateEnv) (denv : DeleteEnv)
    (cname cpath dname st : String) (set_default : Bool) :
    (create_memory_project pin cenv cname cpath set_default st).2 = st ∧
    (delete_project pin denv dname st).2 = st := by
  constructor
  · unfold create_memory_project
    split
    · rfl
    · split <;> rfl
  · unfold delete_project
    split
    · rfl
    · split
      · rfl
      · split <;> rfl

end ProjectManagement
